import Mathlib

/-!
PhysPult serial framing: `SerialCommunicatorMessage`

A shallow embedding of
`PhysPult_esp32/src/Communication/SerialCommunicator/SerialCommunicatorMessage.h`.

PDU format documented in the header:

```
| 4 crc32 | 4 seq. number | 4 ack. number | ... PultMessage | 1 \n |
```

Conventions of the embedding:

* `uint8_t` and `char` are `Byte = Fin 256`; `std::vector<uint8_t>` and `std::string`
  are `List Byte`.
* `uint32_t` values are natural numbers; a conversion to `uint32_t` is `% 2 ^ 32`.
* `std::shared_ptr<PultMessage>` is `Option M` (`none` is the null pointer).
* `PultMessageFactory::Create`, `PultMessage::to_string` and `crc32` are included by the
  header but defined elsewhere; the class is embedded over an arbitrary `Deps M`.
* The scalar data members `valid`, `crc`, `sequence_number`, `ack_number` have no
  initialiser. The byte constructor updates the last three with `|=` and leaves all four
  untouched on its early return, so what they held before the constructor ran is an
  explicit argument (`Storage`).
-/

namespace PhysPult

/-- One `uint8_t` (equally one `char` of a `std::string`). -/
abbrev Byte := Fin 256

/-- Conversion of an integer value to `uint8_t` (`static_cast<uint8_t>`). -/
def toByte (n : Nat) : Byte := ⟨n % 256, Nat.mod_lt n (by decide)⟩

/-- The functions `SerialCommunicatorMessage.h` calls but does not define:
`PultMessageFactory::Create` (`none` stands for the thrown `std::invalid_argument`),
`PultMessage::to_string`, and `crc32<IEEE8023_CRC32_POLYNOMIAL>(seed, begin, end)`. -/
structure Deps (M : Type) where
  Create : List Byte → Option M
  to_string : M → List Byte
  crc32 : Nat → List Byte → Nat

/-- The data members of the class, in declaration order. -/
structure SerialCommunicatorMessage (M : Type) where
  valid : Bool
  crc : Nat
  sequence_number : Nat
  ack_number : Nat
  message : Option M
deriving DecidableEq

/-- What the four scalar members hold when a constructor body starts: they are declared
without initialisers, so this is whatever the object's storage contained. -/
structure Storage where
  valid : Bool
  crc : Nat
  sequence_number : Nat
  ack_number : Nat
deriving DecidableEq

/-- Storage that happens to be all zero bits. -/
def Storage.zero : Storage := ⟨false, 0, 0, 0⟩

/-- Warnings written with `log_w`. -/
inductive Warning where
  | less_than_12_bytes
  | invalid_pult_message
deriving DecidableEq

namespace SerialCommunicatorMessage

variable {M : Type}

/-- One of the loops `for (i = 3; i >= 0; i--) output.emplace_back(
static_cast<uint8_t>((x >> (i * 8)) & 255))` of `to_bytes`. -/
def emplace_u32 (x : Nat) : List Byte :=
  [3, 2, 1, 0].map (fun i => toByte ((x >>> (i * 8)) &&& 255))

/-- The local `msg_string` of `to_bytes`: `message->to_string()` when `message` is set,
the empty string otherwise. -/
def msg_string (E : Deps M) (message : Option M) : List Byte :=
  match message with
  | some m => E.to_string m
  | none => []

/-- The method `to_bytes`. -/
def to_bytes (E : Deps M) (f : SerialCommunicatorMessage M) : List Byte :=
  emplace_u32 f.crc ++ emplace_u32 f.sequence_number ++ emplace_u32 f.ack_number
    ++ msg_string E f.message

/-- The private method `get_crc`: `crc32` with seed `0xFFFFFFFF` over
`bytes.begin() + 4 .. bytes.end()` of `to_bytes()`, returned as `uint32_t`. -/
def get_crc (E : Deps M) (f : SerialCommunicatorMessage M) : Nat :=
  E.crc32 0xFFFFFFFF ((to_bytes E f).drop 4) % 2 ^ 32

/-- One of the loops `for (i = 0; i < 4; i++) field |= bytes[i + off] << (8 * (3 - i))`
of the byte constructor. The shift is done on `int` and the result is converted to
`uint32_t` for the `|=`. -/
def unpack_u32 (field : Nat) (bytes : List Byte) (off : Nat) : Nat :=
  (List.range 4).foldl
    (fun acc i => acc ||| ((bytes.getD (i + off) 0).val <<< (8 * (3 - i))) % 2 ^ 32) field

/-- The constructor `SerialCommunicatorMessage(const std::vector<uint8_t>& bytes)`,
together with the warnings it logs. `mem` is the content of the scalar members before the
constructor body runs; `message` starts as the null pointer. -/
def from_bytes_logged (E : Deps M) (mem : Storage) (bytes : List Byte) :
    SerialCommunicatorMessage M × List Warning :=
  if bytes.length < 12 then
    (⟨mem.valid, mem.crc, mem.sequence_number, mem.ack_number, none⟩,
      [Warning.less_than_12_bytes])
  else
    let crc := unpack_u32 mem.crc bytes 0
    let sequence_number := unpack_u32 mem.sequence_number bytes 4
    let ack_number := unpack_u32 mem.ack_number bytes 8
    let message_str := bytes.drop 12
    match E.Create message_str with
    | some m => (⟨true, crc, sequence_number, ack_number, some m⟩, [])
    | none => (⟨true, crc, sequence_number, ack_number, none⟩, [Warning.invalid_pult_message])

/-- The object built by `SerialCommunicatorMessage(const std::vector<uint8_t>& bytes)`. -/
def from_bytes (E : Deps M) (mem : Storage) (bytes : List Byte) :
    SerialCommunicatorMessage M :=
  (from_bytes_logged E mem bytes).1

/-- The constructor `SerialCommunicatorMessage(std::shared_ptr<PultMessage> message,
uint32_t sequence, uint32_t ack)`: the initialiser list sets `message`,
`sequence_number` and `ack_number`; the body then sets `crc = get_crc()` and
`valid = true`. -/
def from_message (E : Deps M) (mem : Storage) (message : Option M) (sequence ack : Nat) :
    SerialCommunicatorMessage M :=
  let init : SerialCommunicatorMessage M := ⟨mem.valid, mem.crc, sequence, ack, message⟩
  let with_crc : SerialCommunicatorMessage M := { init with crc := get_crc E init }
  { with_crc with valid := true }

/-- The method `get_message`. -/
def get_message (f : SerialCommunicatorMessage M) : Option M := f.message

/-- The method `get_sequence_number`. -/
def get_sequence_number (f : SerialCommunicatorMessage M) : Nat := f.sequence_number

/-- The method `get_ack_number`. -/
def get_ack_number (f : SerialCommunicatorMessage M) : Nat := f.ack_number

/-- The method `is_valid`. -/
def is_valid (f : SerialCommunicatorMessage M) : Bool := f.valid

end SerialCommunicatorMessage

/-! ## Reference encodings used to state the properties -/

/-- The 4-byte unsigned big-endian representation of `x`, most significant byte first:
the base-256 digits of weight `2^24`, `2^16`, `2^8` and `1`. -/
def be_bytes (x : Nat) : List Byte :=
  [toByte (x / 2 ^ 24), toByte (x / 2 ^ 16), toByte (x / 2 ^ 8), toByte x]

/-- The unsigned big-endian value of four bytes. -/
def be_value (b0 b1 b2 b3 : Byte) : Nat :=
  b0.val * 2 ^ 24 + b1.val * 2 ^ 16 + b2.val * 2 ^ 8 + b3.val

/-- The byte list `bytes` with bit `bit` (0..7) of the byte at offset `pos` inverted. -/
def flip_bit (bytes : List Byte) (pos bit : Nat) : List Byte :=
  bytes.set pos (toByte ((bytes.getD pos 0).val ^^^ (1 <<< bit)))

/-! ## A concrete instance of the external functions -/

/-- A payload as text, standing for a `PultMessage`. -/
structure TextMessage where
  text : List Byte
deriving DecidableEq

/-- Modelled from the spec: `PultMessageFactory.h` is not among the sources. The payload
factory `parse(bytes) -> ApplicationMessage` "fails with an `InvalidPayload` condition on
malformed input". This instance accepts the brace-delimited texts that `main.cpp` writes
(`"{" + to_string(linenumber) + "}"`) and rejects every other text. -/
def braced_Create (s : List Byte) : Option TextMessage :=
  if 2 ≤ s.length ∧ s.head? = some 123 ∧ s.getLast? = some 125 then some ⟨s⟩ else none

/-- One step of the bitwise CRC-32 register, most significant bit first. -/
def crc32_shift (crc : Nat) : Nat :=
  if crc &&& 0x80000000 = 0 then (crc <<< 1) % 2 ^ 32
  else ((crc <<< 1) ^^^ 0x04C11DB7) % 2 ^ 32

/-- Feeding one byte into the CRC-32 register. -/
def crc32_byte (crc : Nat) (b : Byte) : Nat :=
  crc32_shift^[8] (crc ^^^ (b.val <<< 24))

/-- Modelled from the spec: `crc32/crc32.h` is not among the sources. "`crc32(seed: uint32,
bytes: slice) -> uint32` using the CRC-32 (IEEE 802.3) polynomial", deterministic and pure
over an explicit byte range. The spec fixes neither bit order nor a final inversion; this
instance shifts most significant bit first and returns the register as is. -/
def ieee8023_crc32 (seed : Nat) (bytes : List Byte) : Nat :=
  bytes.foldl crc32_byte (seed % 2 ^ 32)

/-- The instance of `Deps` used for concrete evaluation. -/
def textDeps : Deps TextMessage where
  Create := braced_Create
  to_string := fun m => m.text
  crc32 := ieee8023_crc32

/-- The payload `"{3}"`. -/
def payload_3 : List Byte := [123, 51, 125]

/-- The frame that `SerialCommunicatorMessage(message, n, 0)` builds for the payload
`"{3}"` and sequence number `n`. -/
def frame_seq (n : Nat) : SerialCommunicatorMessage TextMessage :=
  SerialCommunicatorMessage.from_message textDeps Storage.zero (some ⟨payload_3⟩) n 0

/-- The frame of the end-to-end scenario: payload `"{3}"` with `(seq, ack) = (3, 0)`. -/
def frame_3 : SerialCommunicatorMessage TextMessage := frame_seq 3

/-! ## Link Sequencer -/

/-- Modelled from the spec: the per-connection state of the Link Sequencer (no source file
of it is available): "`local_seq: uint32` (next sequence number to send),
`last_acked_local: uint32`, `expected_peer_seq: uint32` (next sequence number expected
from peer)". -/
structure LinkSession where
  local_seq : Nat
  last_acked_local : Nat
  expected_peer_seq : Nat
deriving DecidableEq

/-- Modelled from the spec: the result of `on_inbound` (no source file of it is
available): `InOrder(payload)`, `Duplicate` ("payload returned for diagnostics") and
`Gap(missing_count, payload)`. -/
inductive DeliveryEvent where
  | InOrder (payload : List Byte)
  | Duplicate (payload : List Byte)
  | Gap (missing_count : Nat) (payload : List Byte)
deriving DecidableEq

/-- Modelled from the spec: the distance from `e` forward to `n` on the circle of 32-bit
sequence numbers, which "wrap modulo 2^32". -/
def seq_distance (e n : Nat) : Nat := (n + 2 ^ 32 - e % 2 ^ 32) % 2 ^ 32

/-- Modelled from the spec: `on_inbound(frame) -> DeliveryEvent` of the Link Sequencer, of
which no source file is available. It "classifies the frame's `sequence_number` against
`expected_peer_seq`: equal → `InOrder(payload)`, advance `expected_peer_seq` by 1; less
than expected (accounting for wraparound) → `Duplicate`; greater than expected →
`Gap(missing_count, payload)`", and "records the frame's `ack_number` ... updating
`last_acked_local` monotonically (ignoring an ack_number that would move it backward)".
Wraparound is read as serial-number arithmetic: a frame up to `2^31 - 1` steps ahead of
the expected number is greater, every other unequal one is less. The frame is read
through `get_sequence_number`, `get_ack_number` and the payload text of `to_bytes`. -/
def on_inbound {M : Type} (E : Deps M) (st : LinkSession) (frame : SerialCommunicatorMessage M) :
    DeliveryEvent × LinkSession :=
  let payload := SerialCommunicatorMessage.msg_string E frame.get_message
  let acked := max st.last_acked_local frame.get_ack_number
  let d := seq_distance st.expected_peer_seq frame.get_sequence_number
  if d = 0 then
    (DeliveryEvent.InOrder payload,
      { st with last_acked_local := acked,
                expected_peer_seq := (st.expected_peer_seq + 1) % 2 ^ 32 })
  else if d < 2 ^ 31 then
    (DeliveryEvent.Gap d payload, { st with last_acked_local := acked })
  else
    (DeliveryEvent.Duplicate payload, { st with last_acked_local := acked })

end PhysPult

/-! ## Byte packing -/

set_option maxRecDepth 100000

namespace PhysPult
open SerialCommunicatorMessage

/-- Masking with 255 keeps the value modulo 256. -/
theorem and_255 (x : Nat) : x &&& 255 = x % 256 := by
  have h := Nat.and_pow_two_sub_one_eq_mod x 8
  simpa using h

/-- The value of a converted byte. -/
theorem toByte_val (n : Nat) : (toByte n).val = n % 256 := rfl

/-- Converting a byte value back gives the byte. -/
theorem toByte_of_val (b : Byte) : toByte b.val = b := by
  apply Fin.ext
  simp [toByte_val, Nat.mod_eq_of_lt b.isLt]

/-- The shift-and-mask loop of `to_bytes` emits the big-endian representation. -/
theorem emplace_u32_eq_be_bytes (x : Nat) : emplace_u32 x = be_bytes x := by
  simp [emplace_u32, be_bytes, toByte, and_255, Nat.shiftRight_eq_div_pow]

/-- OR-ing four bytes shifted to their positions is their big-endian value: the
shifted bytes occupy disjoint bits. -/
theorem or_bytes_eq_be_value (b0 b1 b2 b3 : Byte) :
    b0.val <<< 24 ||| b1.val <<< 16 ||| b2.val <<< 8 ||| b3.val = be_value b0 b1 b2 b3 := by
  have h0 := b0.isLt
  have h1 := b1.isLt
  have h2 := b2.isLt
  have h3 := b3.isLt
  have e3 : 2 ^ 8 * b2.val + b3.val = 2 ^ 8 * b2.val ||| b3.val :=
    Nat.mul_add_lt_is_or (by omega) _
  have e2 : 2 ^ 16 * b1.val + (2 ^ 8 * b2.val + b3.val)
      = 2 ^ 16 * b1.val ||| (2 ^ 8 * b2.val + b3.val) :=
    Nat.mul_add_lt_is_or (by omega) _
  have e1 : 2 ^ 24 * b0.val + (2 ^ 16 * b1.val + (2 ^ 8 * b2.val + b3.val))
      = 2 ^ 24 * b0.val ||| (2 ^ 16 * b1.val + (2 ^ 8 * b2.val + b3.val)) :=
    Nat.mul_add_lt_is_or (by omega) _
  simp only [Nat.shiftLeft_eq, be_value, Nat.lor_assoc]
  rw [Nat.mul_comm b0.val, Nat.mul_comm b1.val, Nat.mul_comm b2.val, ← e3, ← e2, ← e1]
  omega

/-- The unpacking loop ORs the big-endian value of the four bytes at `off` into whatever
the member held before. -/
theorem unpack_u32_eq (field : Nat) (bytes : List Byte) (off : Nat) :
    unpack_u32 field bytes off
      = field ||| be_value (bytes.getD off 0) (bytes.getD (off + 1) 0)
          (bytes.getD (off + 2) 0) (bytes.getD (off + 3) 0) := by
  have hr : List.range 4 = [0, 1, 2, 3] := by decide
  have h0 := (bytes.getD off 0).isLt
  have h1 := (bytes.getD (off + 1) 0).isLt
  have h2 := (bytes.getD (off + 2) 0).isLt
  have h3 := (bytes.getD (off + 3) 0).isLt
  have m0 : ((bytes.getD off 0).val <<< 24) % 2 ^ 32 = (bytes.getD off 0).val <<< 24 := by
    rw [Nat.shiftLeft_eq]; exact Nat.mod_eq_of_lt (by omega)
  have m1 : ((bytes.getD (off + 1) 0).val <<< 16) % 2 ^ 32
      = (bytes.getD (off + 1) 0).val <<< 16 := by
    rw [Nat.shiftLeft_eq]; exact Nat.mod_eq_of_lt (by omega)
  have m2 : ((bytes.getD (off + 2) 0).val <<< 8) % 2 ^ 32
      = (bytes.getD (off + 2) 0).val <<< 8 := by
    rw [Nat.shiftLeft_eq]; exact Nat.mod_eq_of_lt (by omega)
  have m3 : ((bytes.getD (off + 3) 0).val <<< 0) % 2 ^ 32 = (bytes.getD (off + 3) 0).val := by
    rw [Nat.shiftLeft_eq, Nat.pow_zero, Nat.mul_one]; exact Nat.mod_eq_of_lt (by omega)
  rw [← or_bytes_eq_be_value]
  simp only [unpack_u32, hr, List.foldl, Nat.zero_add, Nat.add_comm 1 off, Nat.add_comm 2 off,
    Nat.add_comm 3 off, Nat.sub_zero, Nat.reduceSub, Nat.reduceMul, m0, m1, m2, m3,
    Nat.lor_assoc]

/-- Unpacking the big-endian representation of a 32-bit value gives the value back. -/
theorem be_value_be_bytes (x : Nat) (hx : x < 2 ^ 32) :
    be_value (toByte (x / 2 ^ 24)) (toByte (x / 2 ^ 16)) (toByte (x / 2 ^ 8)) (toByte x) = x := by
  simp only [be_value, toByte_val]
  omega

/-- Packing the big-endian value of four bytes gives the four bytes back. -/
theorem be_bytes_be_value (b0 b1 b2 b3 : Byte) :
    be_bytes (be_value b0 b1 b2 b3) = [b0, b1, b2, b3] := by
  have h0 := b0.isLt
  have h1 := b1.isLt
  have h2 := b2.isLt
  have h3 := b3.isLt
  simp only [be_bytes, be_value, List.cons.injEq, and_true]
  refine ⟨?_, ?_, ?_, ?_⟩ <;> apply Fin.ext <;> simp only [toByte_val] <;> omega

/-! ## The two constructors and `to_bytes` -/

/-- The output of `to_bytes`: three big-endian fields, then the message text. -/
theorem to_bytes_eq {M : Type} (E : Deps M) (f : SerialCommunicatorMessage M) :
    to_bytes E f
      = be_bytes f.crc ++ be_bytes f.sequence_number ++ be_bytes f.ack_number
          ++ msg_string E f.message := by
  simp only [to_bytes, emplace_u32_eq_be_bytes]

/-- A packed field is four bytes long. -/
theorem be_bytes_length (x : Nat) : (be_bytes x).length = 4 := rfl

/-- The output of `to_bytes` is 12 bytes longer than the message text. -/
theorem to_bytes_length {M : Type} (E : Deps M) (f : SerialCommunicatorMessage M) :
    (to_bytes E f).length = 12 + (msg_string E f.message).length := by
  simp only [to_bytes_eq, List.length_append, be_bytes_length]

/-- Everything after the 12 header bytes of `to_bytes` is the message text. -/
theorem to_bytes_drop_12 {M : Type} (E : Deps M) (f : SerialCommunicatorMessage M) :
    (to_bytes E f).drop 12 = msg_string E f.message := by
  simp [to_bytes_eq, be_bytes]

/-- On fewer than 12 bytes the byte constructor logs its warning and returns: the
scalar members keep what the storage held, `message` stays null, and neither the input
bytes nor the payload factory take part in the result. -/
theorem from_bytes_logged_short {M : Type} (E : Deps M) (mem : Storage) (bytes : List Byte)
    (h : bytes.length < 12) :
    from_bytes_logged E mem bytes
      = (⟨mem.valid, mem.crc, mem.sequence_number, mem.ack_number, none⟩,
          [Warning.less_than_12_bytes]) := by
  simp [from_bytes_logged, h]

/-- On 12 bytes or more the byte constructor ORs the three header fields into the
members, stores what the factory returned (null when it threw) and sets `valid = true`. -/
theorem from_bytes_long {M : Type} (E : Deps M) (mem : Storage) (bytes : List Byte)
    (h : 12 ≤ bytes.length) :
    from_bytes E mem bytes
      = ⟨true,
          mem.crc ||| be_value (bytes.getD 0 0) (bytes.getD 1 0) (bytes.getD 2 0)
            (bytes.getD 3 0),
          mem.sequence_number ||| be_value (bytes.getD 4 0) (bytes.getD 5 0) (bytes.getD 6 0)
            (bytes.getD 7 0),
          mem.ack_number ||| be_value (bytes.getD 8 0) (bytes.getD 9 0) (bytes.getD 10 0)
            (bytes.getD 11 0),
          E.Create (bytes.drop 12)⟩ := by
  have hlt : ¬ bytes.length < 12 := by omega
  simp only [from_bytes, from_bytes_logged, hlt, if_false, unpack_u32_eq]
  cases E.Create (bytes.drop 12) <;> rfl

/-- When the factory throws, the byte constructor logs the invalid-message warning. -/
theorem from_bytes_logged_rejected {M : Type} (E : Deps M) (mem : Storage)
    (bytes : List Byte) (h : 12 ≤ bytes.length) (hrej : E.Create (bytes.drop 12) = none) :
    (from_bytes_logged E mem bytes).2 = [Warning.invalid_pult_message] := by
  have hlt : ¬ bytes.length < 12 := by omega
  simp [from_bytes_logged, hlt, hrej]

/-- The object built by the message constructor. -/
theorem from_message_eq {M : Type} (E : Deps M) (mem : Storage) (message : Option M)
    (sequence ack : Nat) :
    from_message E mem message sequence ack
      = ⟨true,
          E.crc32 0xFFFFFFFF (be_bytes sequence ++ be_bytes ack ++ msg_string E message)
            % 2 ^ 32,
          sequence, ack, message⟩ := by
  simp [from_message, get_crc, to_bytes_eq, be_bytes]

/-! ## Decoding into zeroed storage -/

/-- Every input of at least 12 bytes decodes to a frame that reports `is_valid() = true`,
whatever its checksum bytes and whatever the factory did. -/
theorem from_bytes_valid_of_length {M : Type} (E : Deps M) (mem : Storage) (bytes : List Byte)
    (h : 12 ≤ bytes.length) : (from_bytes E mem bytes).is_valid = true := by
  rw [from_bytes_long E mem bytes h]
  rfl

/-- When the object is constructed in zeroed storage, the decoded sequence and ack
numbers are the unsigned big-endian values of bytes 4..7 and 8..11. -/
theorem header_unpacking_zero_storage {M : Type} (E : Deps M) (bytes : List Byte)
    (h : 12 ≤ bytes.length) :
    (from_bytes E Storage.zero bytes).get_sequence_number
        = be_value (bytes.getD 4 0) (bytes.getD 5 0) (bytes.getD 6 0) (bytes.getD 7 0)
      ∧ (from_bytes E Storage.zero bytes).get_ack_number
        = be_value (bytes.getD 8 0) (bytes.getD 9 0) (bytes.getD 10 0) (bytes.getD 11 0) := by
  rw [from_bytes_long E Storage.zero bytes h]
  simp [get_sequence_number, get_ack_number, Storage.zero]

/-- Decoding, into zeroed storage, the bytes of a frame with 32-bit fields. -/
theorem from_bytes_to_bytes_zero_storage {M : Type} (E : Deps M)
    (f : SerialCommunicatorMessage M) (hc : f.crc < 2 ^ 32) (hs : f.sequence_number < 2 ^ 32)
    (ha : f.ack_number < 2 ^ 32) :
    from_bytes E Storage.zero (to_bytes E f)
      = ⟨true, f.crc, f.sequence_number, f.ack_number, E.Create (msg_string E f.message)⟩ := by
  have hlen : 12 ≤ (to_bytes E f).length := by
    rw [to_bytes_length]; omega
  rw [from_bytes_long E _ _ hlen, to_bytes_drop_12]
  simp only [to_bytes_eq, be_bytes, Storage.zero, Nat.zero_or, List.cons_append,
    List.nil_append, List.getD_cons_zero, List.getD_cons_succ,
    be_value_be_bytes _ hc, be_value_be_bytes _ hs, be_value_be_bytes _ ha]

/-- Round trip when the decoder's object is constructed in zeroed storage: the decoded
frame equals the encoded one, so it is valid and has the same counters, checksum and
message. -/
theorem round_trip_zero_storage {M : Type} (E : Deps M) (mem : Storage) (m : M) (s a : Nat)
    (hs : s < 2 ^ 32) (ha : a < 2 ^ 32) (hp : E.Create (E.to_string m) = some m) :
    from_bytes E Storage.zero (to_bytes E (from_message E mem (some m) s a))
      = from_message E mem (some m) s a := by
  rw [from_message_eq]
  rw [from_bytes_to_bytes_zero_storage E _ (Nat.mod_lt _ (by decide)) hs ha]
  simp only [msg_string, hp]

/-- Re-encoding when the decoder's object is constructed in zeroed storage: `to_bytes`
of the decoded frame is the input, checksum bytes included. -/
theorem re_encode_zero_storage {M : Type} (E : Deps M) (bytes : List Byte) (m : M)
    (h : 12 ≤ bytes.length) (hc : E.Create (bytes.drop 12) = some m)
    (hs : E.to_string m = bytes.drop 12) :
    to_bytes E (from_bytes E Storage.zero bytes) = bytes := by
  rw [from_bytes_long E _ _ h, to_bytes_eq]
  simp only [Storage.zero, Nat.zero_or, be_bytes_be_value, hc, msg_string, hs]
  match bytes, h with
  | b0 :: b1 :: b2 :: b3 :: b4 :: b5 :: b6 :: b7 :: b8 :: b9 :: b10 :: b11 :: rest, _ =>
    simp


/-! ## Properties of the frame codec -/

/-- C1 (round trip), evaluated where it fails. The payload `"{3}"` is parsed back by the
factory to the message that serialised to it, and is encoded with `(s, a) = (3, 0)`.
Decoding those bytes in an object whose `sequence_number` member held 4 before the
constructor ran gives a frame with sequence number 7 instead of 3: the byte constructor
ORs the received bytes into the member without initialising it. -/
theorem c1_round_trip_dirty_storage :
    textDeps.Create (textDeps.to_string ⟨payload_3⟩) = some ⟨payload_3⟩
      ∧ frame_3.get_sequence_number = 3
      ∧ (from_bytes textDeps ⟨false, 0, 4, 0⟩ (to_bytes textDeps frame_3)).is_valid = true
      ∧ (from_bytes textDeps ⟨false, 0, 4, 0⟩ (to_bytes textDeps frame_3)).get_sequence_number
          = 7 := by
  decide

/-- C2 (tamper detection), evaluated where it fails. Inverting the lowest bit of the byte
at offset 4 of the encoded frame for `"{3}"`, `(3, 0)` changes the frame, and the byte
constructor, even in zeroed storage, still reports `is_valid() = true`: it sets
`valid = true` without comparing `crc` with `get_crc()`. -/
theorem c2_tampered_frame_is_valid :
    flip_bit (to_bytes textDeps frame_3) 4 0 ≠ to_bytes textDeps frame_3
      ∧ (flip_bit (to_bytes textDeps frame_3) 4 0).drop 4
          = [1, 0, 0, 3, 0, 0, 0, 0, 123, 51, 125]
      ∧ (from_bytes textDeps Storage.zero (flip_bit (to_bytes textDeps frame_3) 4 0)).is_valid
          = true := by
  decide

/-- C3 (minimum length), evaluated where it fails. Decoding the empty byte sequence in an
object whose `valid` member held `true` before the constructor ran gives a frame that
reports `is_valid() = true`: the early return leaves `valid` unassigned. -/
theorem c3_short_input_valid_flag :
    ([] : List Byte).length < 12
      ∧ (from_bytes textDeps ⟨true, 0, 0, 0⟩ []).is_valid = true := by
  decide

/-- C4 (payload rejection), evaluated where it fails. The 13 bytes made of a zero header
and the text `"x"`, which the factory rejects, decode (in zeroed storage) to a frame with
a null message that reports `is_valid() = true`. -/
theorem c4_rejected_payload_is_valid :
    textDeps.Create (List.drop 12 [0, 0, 0, 0, 0, 0, 0, 0, 0, 0, 0, 0, 120]) = none
      ∧ (from_bytes textDeps Storage.zero [0, 0, 0, 0, 0, 0, 0, 0, 0, 0, 0, 0, 120]).is_valid
          = true
      ∧ (from_bytes textDeps Storage.zero [0, 0, 0, 0, 0, 0, 0, 0, 0, 0, 0, 0, 120]).get_message
          = none := by
  decide

/-- C5 (checksum coverage). For every message pointer, counters `(s, a)` and prior content
of the object's storage, the checksum stored by `SerialCommunicatorMessage(m, s, a)` is
`crc32` with seed `0xFFFFFFFF` over the 4 big-endian bytes of `s`, the 4 big-endian bytes
of `a` and the serialised payload (as `uint32_t`), and bytes 0..3 of `to_bytes()` are its
big-endian representation. More generally `get_crc()` of any frame is that function of
the sequence number, ack number and message only: the value held by the checksum member
does not enter it. -/
theorem c5_checksum_coverage {M : Type} (E : Deps M) (mem : Storage) (message : Option M)
    (s a : Nat) :
    (from_message E mem message s a).crc
        = E.crc32 0xFFFFFFFF (be_bytes s ++ be_bytes a ++ msg_string E message) % 2 ^ 32
      ∧ (to_bytes E (from_message E mem message s a)).take 4
        = be_bytes (E.crc32 0xFFFFFFFF (be_bytes s ++ be_bytes a ++ msg_string E message)
            % 2 ^ 32)
      ∧ ∀ f : SerialCommunicatorMessage M,
          get_crc E f
            = E.crc32 0xFFFFFFFF
                (be_bytes f.sequence_number ++ be_bytes f.ack_number ++ msg_string E f.message)
              % 2 ^ 32 := by
  refine ⟨?_, ?_, ?_⟩
  · rw [from_message_eq]
  · rw [from_message_eq, to_bytes_eq]
    simp [be_bytes]
  · intro f
    simp [get_crc, to_bytes_eq, be_bytes]

/-- C6 (wire layout). For every frame, with or without a message, the first `12 + N` bytes
of `to_bytes()` are the big-endian representation of the checksum (offset 0), of the
sequence number (offset 4) and of the ack number (offset 8), followed from offset 12 by
the `N` bytes of the serialised payload, unchanged. -/
theorem c6_wire_layout {M : Type} (E : Deps M) (f : SerialCommunicatorMessage M) :
    (to_bytes E f).take (12 + (msg_string E f.message).length)
      = be_bytes f.crc ++ be_bytes f.sequence_number ++ be_bytes f.ack_number
          ++ msg_string E f.message := by
  rw [← to_bytes_length, List.take_length, to_bytes_eq]

/-- C7 (terminator), refuted as stated: the encoded frame for `"{3}"`, `(3, 0)` is not
`12 + N + 1` bytes long ending in a newline. It is 15 bytes long and ends with `'}'`. -/
theorem c7_terminator_counterexample :
    ¬ ((to_bytes textDeps frame_3).length
          = 12 + (msg_string textDeps frame_3.message).length + 1
        ∧ (to_bytes textDeps frame_3).getLast? = some 10) := by
  decide

/-- C7 (terminator), amended. For every frame with a payload of `N` bytes, `to_bytes()`
has length exactly `12 + N` and everything from offset 12 on is the payload: no
terminator byte is appended. -/
theorem c7_encoded_length {M : Type} (E : Deps M) (f : SerialCommunicatorMessage M) :
    (to_bytes E f).length = 12 + (msg_string E f.message).length
      ∧ (to_bytes E f).drop 12 = msg_string E f.message :=
  ⟨to_bytes_length E f, to_bytes_drop_12 E f⟩

/-- C8 (header unpacking), evaluated where it fails. For the 12 bytes
`00 00 00 00 | 00 00 00 02 | 00 00 00 00`, whose bytes 4..7 have big-endian value 2, an
object whose `sequence_number` member held 1 before the constructor ran decodes to
sequence number 3: the prior content of the member contributes to the result. -/
theorem c8_header_unpacking_dirty_storage :
    be_value 0 0 0 2 = 2
      ∧ (from_bytes textDeps ⟨false, 0, 1, 0⟩
          [0, 0, 0, 0, 0, 0, 0, 2, 0, 0, 0, 0]).get_sequence_number = 3 := by
  decide

/-- C9 (delivery classification). For a session expecting sequence number `e` and a frame
with sequence number `n` (both 32-bit): `n = e` yields `InOrder` and advances
`expected_peer_seq` to `e + 1` modulo `2^32`; a smaller `n` yields `Duplicate`, where
smaller accounts for wraparound (`n` below `e` by at most `2^31`, or above `e` by `2^31` or
more, that is behind it across the wrap); a larger `n` yields `Gap` with the frame's
payload and the number of missing frames, `n - e` (or `n + 2^32 - e` when `n` is ahead of
`e` across the wrap). -/
theorem c9_delivery_classification {M : Type} (E : Deps M) (st : LinkSession)
    (frame : SerialCommunicatorMessage M) (he : st.expected_peer_seq < 2 ^ 32)
    (hn : frame.get_sequence_number < 2 ^ 32) :
    (frame.get_sequence_number = st.expected_peer_seq →
        (on_inbound E st frame).1 = DeliveryEvent.InOrder (msg_string E frame.get_message)
          ∧ (on_inbound E st frame).2.expected_peer_seq
              = (st.expected_peer_seq + 1) % 2 ^ 32)
      ∧ (frame.get_sequence_number < st.expected_peer_seq →
          st.expected_peer_seq - frame.get_sequence_number ≤ 2 ^ 31 →
          (on_inbound E st frame).1 = DeliveryEvent.Duplicate (msg_string E frame.get_message))
      ∧ (st.expected_peer_seq < frame.get_sequence_number →
          2 ^ 31 ≤ frame.get_sequence_number - st.expected_peer_seq →
          (on_inbound E st frame).1 = DeliveryEvent.Duplicate (msg_string E frame.get_message))
      ∧ (st.expected_peer_seq < frame.get_sequence_number →
          frame.get_sequence_number - st.expected_peer_seq < 2 ^ 31 →
          (on_inbound E st frame).1
            = DeliveryEvent.Gap (frame.get_sequence_number - st.expected_peer_seq)
                (msg_string E frame.get_message))
      ∧ (frame.get_sequence_number < st.expected_peer_seq →
          2 ^ 31 < st.expected_peer_seq - frame.get_sequence_number →
          (on_inbound E st frame).1
            = DeliveryEvent.Gap (frame.get_sequence_number + 2 ^ 32 - st.expected_peer_seq)
                (msg_string E frame.get_message)) := by
  generalize hnv : frame.get_sequence_number = n at hn ⊢
  generalize hev : st.expected_peer_seq = e at he ⊢
  have hd : seq_distance e n = (n + 2 ^ 32 - e) % 2 ^ 32 := by
    simp only [seq_distance, Nat.mod_eq_of_lt he]
  refine ⟨?_, ?_, ?_, ?_, ?_⟩
  · intro h
    have h0 : seq_distance e n = 0 := by rw [hd]; omega
    simp [on_inbound, hnv, hev, h0]
  · intro h1 h2
    have h0 : ¬ seq_distance e n = 0 := by rw [hd]; omega
    have h3 : ¬ seq_distance e n < 2147483648 := by rw [hd]; omega
    simp [on_inbound, hnv, hev, h0, h3]
  · intro h1 h2
    have h0 : ¬ seq_distance e n = 0 := by rw [hd]; omega
    have h3 : ¬ seq_distance e n < 2147483648 := by rw [hd]; omega
    simp [on_inbound, hnv, hev, h0, h3]
  · intro h1 h2
    have h4 : seq_distance e n = n - e := by rw [hd]; omega
    have h0 : ¬ n - e = 0 := by omega
    have h3 : n - e < 2147483648 := by omega
    simp [on_inbound, hnv, hev, h4, h0, h3]
  · intro h1 h2
    have h4 : seq_distance e n = n + 4294967296 - e := by rw [hd]; omega
    have h0 : ¬ n + 4294967296 - e = 0 := by omega
    have h3 : n + 4294967296 - e < 2147483648 := by omega
    simp [on_inbound, hnv, hev, h4, h0, h3]

/-- C9 at the stated witness: a session expecting 5 classifies sequence number 5 as
`InOrder` (and then expects 6), 3 as `Duplicate` and 8 as `Gap(3, payload)`. -/
theorem c9_delivery_classification_witness :
    ((⟨0, 0, 5⟩ : LinkSession).expected_peer_seq < 2 ^ 32
        ∧ (frame_seq 5).get_sequence_number < 2 ^ 32
        ∧ (frame_seq 3).get_sequence_number < 2 ^ 32
        ∧ (frame_seq 8).get_sequence_number < 2 ^ 32)
      ∧ (on_inbound textDeps ⟨0, 0, 5⟩ (frame_seq 5)).1 = DeliveryEvent.InOrder payload_3
      ∧ (on_inbound textDeps ⟨0, 0, 5⟩ (frame_seq 5)).2.expected_peer_seq = 6
      ∧ (on_inbound textDeps ⟨0, 0, 5⟩ (frame_seq 3)).1 = DeliveryEvent.Duplicate payload_3
      ∧ (on_inbound textDeps ⟨0, 0, 5⟩ (frame_seq 8)).1 = DeliveryEvent.Gap 3 payload_3 :=
  ⟨by decide,
    ((c9_delivery_classification textDeps ⟨0, 0, 5⟩ (frame_seq 5) (by decide) (by decide)).1
      (by decide)).1,
    ((c9_delivery_classification textDeps ⟨0, 0, 5⟩ (frame_seq 5) (by decide) (by decide)).1
      (by decide)).2,
    (c9_delivery_classification textDeps ⟨0, 0, 5⟩ (frame_seq 3) (by decide) (by decide)).2.1
      (by decide) (by decide),
    (c9_delivery_classification textDeps ⟨0, 0, 5⟩ (frame_seq 8) (by decide) (by decide)).2.2.2.1
      (by decide) (by decide)⟩


/-- C10 (re-encoding), evaluated where it fails. The encoded frame for `"{3}"`, `(3, 0)`
has a payload part that the factory accepts and serialises back unchanged. Decoded in an
object whose `crc` member held 1 before the constructor ran and re-encoded, it differs
from the input in the last checksum byte (69 instead of 68). -/
theorem c10_re_encode_dirty_storage :
    (textDeps.Create ((to_bytes textDeps frame_3).drop 12)).map textDeps.to_string
        = some ((to_bytes textDeps frame_3).drop 12)
      ∧ to_bytes textDeps frame_3
          = [235, 232, 250, 68, 0, 0, 0, 3, 0, 0, 0, 0, 123, 51, 125]
      ∧ to_bytes textDeps (from_bytes textDeps ⟨false, 1, 0, 0⟩ (to_bytes textDeps frame_3))
          = [235, 232, 250, 69, 0, 0, 0, 3, 0, 0, 0, 0, 123, 51, 125] := by
  decide

end PhysPult
